import Mathlib

/-
Verification of homework.py (AnnaMolodova/homework_bot): a single-file
Telegram bot that polls the Yandex Practicum homework API on a fixed
interval and forwards status changes as chat messages.

The embedding below translates the source functions
(send_message, get_api_answer, check_response, parse_status,
check_tokens, and the while-loop of main) into executable Lean
definitions.  JSON values returned by `response.json()` are modelled by
the inductive type `PyVal`; raised Python exceptions are modelled by
`Except PyErr`; the `logger` calls made by each function are returned
as a `List String` of the logged messages.  Network traffic, the
Telegram client and the clock are inputs to the corresponding
definitions (an `HttpResult` for `requests.get`, a boolean delivery
outcome for `bot.send_message`, and an integer `now` for
`int(time.time())`).
-/

namespace HomeworkBot

/-- JSON values as produced by `response.json()` in Python: `None`,
booleans, numbers, strings, lists, and string-keyed dicts.  JSON
numbers are modelled as integers; a float behaves identically to an
int for every operation modelled here (not subscriptable, no `.get`
attribute, not a dict key match). -/
inductive PyVal where
  | none : PyVal
  | bool : Bool → PyVal
  | int : Int → PyVal
  | str : String → PyVal
  | list : List PyVal → PyVal
  | dict : List (String × PyVal) → PyVal

/-- Modelled from the spec: the repository's `exceptions` module is not
under src/ (only `homework.py` imports it).  Per spec section 7, every
error raised by the program is caught by the loop's blanket
`except Exception`, so the two custom classes `NoAccessToApiExeption`
and `SendMessageExeptinon` (source spelling kept) are ordinary
`Exception` subclasses carrying only their message; they are modelled
here as constructors alongside the built-in `KeyError`, `TypeError`
and `AttributeError` that `homework.py` also raises. -/
inductive PyErr where
  | keyError (msg : String)
  | typeError (msg : String)
  | attributeError (msg : String)
  | noAccessToApiExeption (msg : String)
  | sendMessageExeptinon
deriving DecidableEq, Repr

/-- Association-list lookup with string keys, first binding wins
(Python dict literals in this program have distinct keys, so this
agrees with Python dict lookup). -/
def lookupStr {β : Type} (k : String) : List (String × β) → Option β
  | [] => Option.none
  | (k2, v) :: rest => if k2 = k then some v else lookupStr k rest

/-- Python subscript `v["k"]` on a JSON value: dict lookup raising
`KeyError` on a missing key; every non-dict JSON value raises a
`TypeError` (message as produced by CPython for that type). -/
def PyVal.subscr : PyVal → String → Except PyErr PyVal
  | .dict kvs, k =>
      match lookupStr k kvs with
      | some v => .ok v
      | Option.none => .error (.keyError k)
  | .list _, _ => .error (.typeError "list indices must be integers or slices, not str")
  | .str _, _ => .error (.typeError "string indices must be integers")
  | .int _, _ => .error (.typeError "\x27int\x27 object is not subscriptable")
  | .bool _, _ => .error (.typeError "\x27bool\x27 object is not subscriptable")
  | .none, _ => .error (.typeError "\x27NoneType\x27 object is not subscriptable")

/-- Python `v.get("k")` on a JSON value: defined for dicts (returning
`None` on a missing key); every other JSON value raises an
`AttributeError` since only dicts have a `get` method. -/
def PyVal.get : PyVal → String → Except PyErr PyVal
  | .dict kvs, k => .ok ((lookupStr k kvs).getD .none)
  | .list _, _ => .error (.attributeError "\x27list\x27 object has no attribute \x27get\x27")
  | .str _, _ => .error (.attributeError "\x27str\x27 object has no attribute \x27get\x27")
  | .int _, _ => .error (.attributeError "\x27int\x27 object has no attribute \x27get\x27")
  | .bool _, _ => .error (.attributeError "\x27bool\x27 object has no attribute \x27get\x27")
  | .none, _ => .error (.attributeError "\x27NoneType\x27 object has no attribute \x27get\x27")

/-- Python `isinstance(v, dict)` for JSON values. -/
def PyVal.isDict : PyVal → Bool
  | .dict _ => true
  | _ => false

/-- Python `isinstance(v, list)` for JSON values. -/
def PyVal.isList : PyVal → Bool
  | .list _ => true
  | _ => false

/-- Python truthiness of a JSON value, as used by
`current_timestamp or int(time.time())` in get_api_answer. -/
def PyVal.truthy : PyVal → Bool
  | .none => false
  | .bool b => b
  | .int n => n != 0
  | .str s => s != ""
  | .list xs => !xs.isEmpty
  | .dict kvs => !kvs.isEmpty

mutual

/-- Python `repr()` of a JSON value (escaping subtleties inside string
contents are not modelled; no claim depends on them). -/
def pyRepr : PyVal → String
  | .none => "None"
  | .bool true => "True"
  | .bool false => "False"
  | .int n => toString n
  | .str s => "\x27" ++ s ++ "\x27"
  | .list xs => "[" ++ pyReprSeq xs ++ "]"
  | .dict kvs => "\x7b" ++ pyReprItems kvs ++ "\x7d"

/-- Comma-separated `repr()`s of the elements of a list. -/
def pyReprSeq : List PyVal → String
  | [] => ""
  | [x] => pyRepr x
  | x :: y :: rest => pyRepr x ++ ", " ++ pyReprSeq (y :: rest)

/-- Comma-separated `repr()`s of the items of a dict. -/
def pyReprItems : List (String × PyVal) → String
  | [] => ""
  | [(k, v)] => "\x27" ++ k ++ "\x27: " ++ pyRepr v
  | (k, v) :: p :: rest =>
      "\x27" ++ k ++ "\x27: " ++ pyRepr v ++ ", " ++ pyReprItems (p :: rest)

end

/-- Python `str()` of a JSON value, as interpolated by the f-string in
parse_status (`str` renders without quotes, everything else as its
`repr`). -/
def pyStr : PyVal → String
  | .str s => s
  | v => pyRepr v

/-- Python `str(e)` of an exception value, as interpolated by
`f'Сбой в работе программы: {error}'` in main.  `str` of a `KeyError`
is the `repr` of its argument (hence the quotes); `str` of a bare
`SendMessageExeptinon` raised without arguments is the empty string;
the remaining exceptions carry their message verbatim. -/
def PyErr.pyMessage : PyErr → String
  | .keyError m => "\x27" ++ m ++ "\x27"
  | .typeError m => m
  | .attributeError m => m
  | .noAccessToApiExeption m => m
  | .sendMessageExeptinon => ""

/-- TELEGRAM_RETRY_TIME from homework.py: the fixed sleep interval in
seconds. -/
def TELEGRAM_RETRY_TIME : Nat := 600

/-- HOMEWORK_VERDICTS from homework.py: the three known status values
and their canned verdict texts. -/
def HOMEWORK_VERDICTS : List (String × String) :=
  [("approved", "Работа проверена: ревьюеру всё понравилось. Ура!"),
   ("reviewing", "Работа взята на проверку ревьюером."),
   ("rejected", "Работа проверена: у ревьюера есть замечания.")]

/-- send_message from homework.py.  `deliveryOk` abstracts whether the
underlying `bot.send_message(TELEGRAM_CHAT_ID, message)` call
succeeds.  On success an info line is logged; on any failure an error
line is logged and a bare `SendMessageExeptinon` is raised.  Returns
the raised exception (if any) together with the logged messages. -/
def send_message (deliveryOk : Bool) (message : String) :
    Except PyErr Unit × List String :=
  if deliveryOk then
    (.ok (), ["Сообщение успешно отправлено в Telegram"])
  else
    (.error .sendMessageExeptinon, ["Сообщение не отправилось: " ++ message])

/-- Outcome of the `requests.get(ENDPOINT, headers=HEADERS,
params=params)` call: either an HTTP response with a status code and a
body (`.ok` when the body parses as JSON, `.error` when `.json()`
raises `json.JSONDecodeError`), or a transport-level exception. -/
inductive HttpResult where
  | response (status_code : Nat) (body : Except String PyVal)
  | transportError (msg : String)

/-- Result of one call to get_api_answer: the `from_date` query
parameter it sent, the returned JSON or raised exception, and the
logged messages. -/
structure ApiCall where
  from_date : PyVal
  result : Except PyErr PyVal
  logs : List String

/-- get_api_answer from homework.py.  `current_timestamp` is the
current poll cursor (a JSON value, since main reassigns it from
`response.get('current_date')`), `now` models `int(time.time())`, and
`http` the network outcome.

Control-flow notes, traced from the source:
* `timestamp = current_timestamp or int(time.time())` falls back to
  `now` exactly when `current_timestamp` is falsy (`None`, `0`, …).
* On a non-200 status code the function logs the message carrying the
  status code and raises `NoAccessToApiExeption(message_error)` -- but
  that raise happens inside the same `try`, so the function's own
  blanket `except Exception` catches it, logs the generic
  `'Нет доступа к API'` and re-raises `NoAccessToApiExeption` with the
  generic message: the status code survives only in the log.
* A transport-level exception from `requests.get` likewise reaches the
  blanket handler and surfaces as the generic message.
* When `.json()` raises, the `except json.JSONDecodeError` handler
  logs and then executes `raise json.JSONDecodeError` -- raising the
  class itself, whose zero-argument instantiation fails because
  `JSONDecodeError.__init__` requires `msg`, `doc` and `pos`, so what
  actually propagates is a `TypeError` about the missing arguments. -/
def get_api_answer (current_timestamp : PyVal) (now : Int)
    (http : HttpResult) : ApiCall :=
  let timestamp := if current_timestamp.truthy then current_timestamp else .int now
  let outcome : Except PyErr PyVal × List String :=
    match http with
    | .transportError _ =>
        (.error (.noAccessToApiExeption "Нет доступа к API"), ["Нет доступа к API"])
    | .response status_code body =>
        if status_code ≠ 200 then
          (.error (.noAccessToApiExeption "Нет доступа к API"),
           [" ENDPOINT недоступен. Ошибка: " ++ toString status_code,
            "Нет доступа к API"])
        else
          match body with
          | .ok v => (.ok v, [])
          | .error _ =>
              (.error (.typeError
                  "JSONDecodeError.__init__() missing 3 required positional arguments"),
               ["Ответ не преобразовался в JSON"])
  { from_date := timestamp, result := outcome.1, logs := outcome.2 }

/-- check_response from homework.py.  The subscript
`response['homeworks']` runs first inside a `try` whose only handler
is `except KeyError`: a missing key on a dict is converted to
`KeyError('Ключ homeworks не доступен')`, while the `TypeError` a
non-dict raises propagates untouched -- which makes the subsequent
`isinstance(response, dict)` branch unreachable.  A dict whose
`homeworks` value is not a list raises
`TypeError('homework должен быть списком')` after logging it. -/
def check_response (response : PyVal) :
    Except PyErr (List PyVal) × List String :=
  match response.subscr "homeworks" with
  | .error (.keyError _) => (.error (.keyError "Ключ homeworks не доступен"), [])
  | .error e => (.error e, [])
  | .ok homework =>
      if ¬ response.isDict then
        (.error (.typeError "response должен быть словарем"),
         ["response должен быть словарем"])
      else
        match homework with
        | .list hws => (.ok hws, [])
        | _ =>
            (.error (.typeError "homework должен быть списком"),
             ["homework должен быть списком"])

/-- parse_status from homework.py.  Reads `homework_name` and `status`
with `.get` (so both default to `None` on a dict; a non-dict item
raises `AttributeError` at the first `.get`).  A status that is not a
key of HOMEWORK_VERDICTS -- including `None`, the empty string and any
non-string -- is logged and raised as
`KeyError('Статус работы не определен.')`; otherwise the fixed
template interpolates the name and the verdict. -/
def parse_status (homework : PyVal) : Except PyErr String × List String :=
  match homework.get "homework_name" with
  | .error e => (.error e, [])
  | .ok homework_name =>
      match homework.get "status" with
      | .error e => (.error e, [])
      | .ok homework_status =>
          match homework_status with
          | .str s =>
              match lookupStr s HOMEWORK_VERDICTS with
              | some verdict =>
                  (.ok ("Изменился статус проверки работы \"" ++ pyStr homework_name
                        ++ "\". " ++ verdict), [])
              | Option.none =>
                  (.error (.keyError "Статус работы не определен."),
                   ["Статус работы не определен."])
          | _ =>
              (.error (.keyError "Статус работы не определен."),
               ["Статус работы не определен."])

/-- check_tokens from homework.py.  Each credential is `os.getenv(...)`:
`Option.none` models an unset variable, `some s` a set one (possibly
the empty string).  The loop over the `secret_key` dict returns
`False` at the first value that `is None`, after logging a critical
line naming it; note that only `is None` is tested, so a set-but-empty
value passes. -/
def check_tokens (practicum_token telegram_token telegram_chat_id : Option String) :
    Bool × List String :=
  let logs0 := ["Проверка доступности переменных окружения"]
  match practicum_token with
  | Option.none => (false, logs0 ++ ["Нет переменной окружения: PRACTICUM_TOKEN"])
  | some _ =>
      match telegram_token with
      | Option.none => (false, logs0 ++ ["Нет переменной окружения: TELEGRAM_TOKEN"])
      | some _ =>
          match telegram_chat_id with
          | Option.none =>
              (false, logs0 ++ ["Нет переменной окружения: TELEGRAM_CHAT_ID"])
          | some _ => (true, logs0)

/-- Outcome of the startup prologue of main: either the process called
`exit()` before constructing the Telegram client and before entering
the loop (hence before any network call), or it proceeded into the
loop. Either way the accumulated log lines are carried. -/
inductive StartupOutcome where
  | exited (logs : List String)
  | started (logs : List String)

/-- Whether the startup prologue proceeded into the polling loop. -/
def StartupOutcome.isStarted : StartupOutcome → Bool
  | .started _ => true
  | .exited _ => false

/-- The log lines accumulated by the startup prologue. -/
def StartupOutcome.logLines : StartupOutcome → List String
  | .started lg => lg
  | .exited lg => lg

/-- The startup prologue of main (lines before the while-loop):
`if not check_tokens(): logger.critical(...); exit()`. -/
def main_startup (practicum_token telegram_token telegram_chat_id : Option String) :
    StartupOutcome :=
  match check_tokens practicum_token telegram_token telegram_chat_id with
  | (true, lg) => .started lg
  | (false, lg) => .exited (lg ++ ["Отсутствуют важные переменные окружения"])

/-- The `for homework in homeworks` body of main: parse each item and
send the resulting message, aborting at the first raised exception.
`sendOk i` is the delivery outcome of the i-th send of the iteration
(per-call logs are modelled on parse_status and send_message
themselves). -/
def notify_each (sendOk : Nat → Bool) : Nat → List PyVal → Except PyErr Unit
  | _, [] => .ok ()
  | i, hw :: rest =>
      match (parse_status hw).1 with
      | .error e => .error e
      | .ok message =>
          match (send_message (sendOk i) message).1 with
          | .error e => .error e
          | .ok _ => notify_each sendOk (i + 1) rest

/-- The try-block of one iteration of the while-loop of main:
fetch, validate, reassign `current_timestamp = response.get('current_date')`,
then format-and-send each homework.  Returns the exception raised (if
any) together with the value `current_timestamp` holds afterwards --
the reassignment happens before the for-loop, so a later parse or send
failure leaves the cursor already advanced. -/
def try_block (current_timestamp : PyVal) (now : Int) (http : HttpResult)
    (sendOk : Nat → Bool) : Except PyErr Unit × PyVal :=
  match (get_api_answer current_timestamp now http).result with
  | .error e => (.error e, current_timestamp)
  | .ok response =>
      match (check_response response).1 with
      | .error e => (.error e, current_timestamp)
      | .ok homeworks =>
          match response.get "current_date" with
          | .error e => (.error e, current_timestamp)
          | .ok new_timestamp =>
              match notify_each sendOk 0 homeworks with
              | .error e => (.error e, new_timestamp)
              | .ok _ => (.ok (), new_timestamp)

/-- Observable outcome of one iteration of the while-loop of main:
the value of `box_error` afterwards, the operator-alert send attempts
made in the `except` branch, the seconds slept, the exception escaping
the while-loop (if any, terminating the process), and the log lines of
the branch taken. -/
structure IterResult where
  box_error : String
  alerts : List String
  sleptFor : Nat
  crashed : Option PyErr
  logs : List String

/-- One iteration of the while-loop of main (lines 135-152), with the
try-block abstracted to its outcome `tryResult` and the delivery
outcome of the operator-alert send abstracted to `alertOk`.

* No exception: the `else` clause logs and sleeps.
* Exception with a message different from `box_error`: send_message is
  attempted; if it succeeds, `box_error` is updated and the loop
  sleeps; if it raises, the assignment and the sleep are skipped and
  the `SendMessageExeptinon` propagates out of the while-loop
  (nothing above catches it), terminating the process.
* Exception with a message equal to `box_error`: nothing happens --
  no send, no sleep -- and the loop immediately re-polls. -/
def loopIter (box_error : String) (tryResult : Except PyErr Unit)
    (alertOk : Bool) : IterResult :=
  match tryResult with
  | .ok _ =>
      { box_error := box_error, alerts := [], sleptFor := TELEGRAM_RETRY_TIME
        crashed := Option.none, logs := ["Сообщение отправлено"] }
  | .error error =>
      let message := "Сбой в работе программы: " ++ error.pyMessage
      if message ≠ box_error then
        match send_message alertOk message with
        | (.ok _, lg) =>
            { box_error := message, alerts := [message]
              sleptFor := TELEGRAM_RETRY_TIME, crashed := Option.none, logs := lg }
        | (.error e, lg) =>
            { box_error := box_error, alerts := [message], sleptFor := 0
              crashed := some e, logs := lg }
      else
        { box_error := box_error, alerts := [], sleptFor := 0
          crashed := Option.none, logs := [] }

/-- A run of consecutive failing iterations (alert sends succeeding):
the alert attempts of each iteration, threading `box_error`. -/
def runFailures (box_error : String) : List PyErr → List (List String)
  | [] => []
  | e :: es =>
      let r := loopIter box_error (.error e) true
      r.alerts :: runFailures r.box_error es

/-- The alert attempts of one failing iteration (alert delivery
succeeding): none when the formatted message equals `box_error`,
exactly that message otherwise. -/
theorem loopIter_error_alerts (box : String) (e : PyErr) :
    (loopIter box (.error e) true).alerts
      = if "Сбой в работе программы: " ++ e.pyMessage = box then []
        else ["Сбой в работе программы: " ++ e.pyMessage] := by
  by_cases hm : "Сбой в работе программы: " ++ e.pyMessage = box <;>
    simp [loopIter, send_message, hm]

/-- The `box_error` value after one failing iteration (alert delivery
succeeding): unchanged on a duplicate, the new message otherwise. -/
theorem loopIter_error_box (box : String) (e : PyErr) :
    (loopIter box (.error e) true).box_error
      = if "Сбой в работе программы: " ++ e.pyMessage = box then box
        else "Сбой в работе программы: " ++ e.pyMessage := by
  by_cases hm : "Сбой в работе программы: " ++ e.pyMessage = box <;>
    simp [loopIter, send_message, hm]

/-- Claim C3 (code bug evaluation): for an HTTP 503 response,
get_api_answer raises the generic error whose message is
`'Нет доступа к API'` -- which contains none of the characters of
`503` -- because the function's own blanket `except Exception`
swallows the `NoAccessToApiExeption` that carried the status code;
the 503-bearing text survives only in the local log. -/
theorem claim_C3_code_evaluation :
    (get_api_answer (PyVal.int 1000) 1000
        (.response 503 (.ok (PyVal.dict [])))).result
      = .error (.noAccessToApiExeption "Нет доступа к API")
    ∧ (get_api_answer (PyVal.int 1000) 1000
        (.response 503 (.ok (PyVal.dict [])))).logs
      = [" ENDPOINT недоступен. Ошибка: 503", "Нет доступа к API"]
    ∧ ("Нет доступа к API".data.contains '5') = false
    ∧ ("Нет доступа к API".data.contains '0') = false
    ∧ ("Нет доступа к API".data.contains '3') = false := by
  refine ⟨rfl, rfl, ?_, ?_, ?_⟩ <;> decide

/-- Claim C5, counterexample: all three credentials set to the empty
string -- hence not non-empty -- still pass check_tokens, and the
process enters the loop instead of refusing to start. -/
theorem claim_C5_counterexample :
    (main_startup (some "") (some "") (some "")).isStarted = true
    ∧ (check_tokens (some "") (some "") (some "")).1 = true := ⟨rfl, rfl⟩

/-- Claim C5, amended: the process enters the loop exactly when all
three credential environment values are present (set, possibly
empty); when any is absent, critical diagnostics are logged and the
process exits before entering the loop and before any network call. -/
theorem claim_C5_amended (p t c : Option String) :
    (main_startup p t c).isStarted = (p.isSome && t.isSome && c.isSome)
    ∧ ((main_startup p t c).isStarted = false →
        "Отсутствуют важные переменные окружения" ∈ (main_startup p t c).logLines
        ∧ (check_tokens p t c).1 = false) := by
  cases p <;> cases t <;> cases c <;> refine ⟨rfl, fun h => ?_⟩ <;>
    simp_all [main_startup, check_tokens, StartupOutcome.logLines,
      StartupOutcome.isStarted]

/-- Claim C5, witness for the amended theorem at a concrete input: the
API token absent, the other two set. -/
theorem claim_C5_amended_witness :
    "Отсутствуют важные переменные окружения"
      ∈ (main_startup Option.none (some "x") (some "y")).logLines
    ∧ (check_tokens Option.none (some "x") (some "y")).1 = false :=
  (claim_C5_amended Option.none (some "x") (some "y")).2 rfl

/-- Claim C6, counterexample: a list payload lacks the `homeworks`
key, yet check_response raises the subscript `TypeError`, not the
key-not-found `KeyError` -- so the key error is not raised
independently of whether the payload is a mapping. -/
theorem claim_C6_counterexample :
    (check_response (PyVal.list [])).1
      = .error (.typeError "list indices must be integers or slices, not str")
    ∧ (check_response (PyVal.list [])).1
      ≠ .error (.keyError "Ключ homeworks не доступен") := by
  refine ⟨rfl, fun hm => ?_⟩
  exact PyErr.noConfusion (Except.error.inj hm)

/-- Claim C6, amended: for every mapping payload lacking the
`homeworks` key, check_response raises
`KeyError('Ключ homeworks не доступен')`; for a non-mapping payload
the subscript attempt raises a `TypeError` before the key check is
reached (see the C6 counterexample). -/
theorem claim_C6_amended (kvs : List (String × PyVal))
    (h : lookupStr "homeworks" kvs = Option.none) :
    check_response (PyVal.dict kvs)
      = (.error (.keyError "Ключ homeworks не доступен"), []) := by
  simp [check_response, PyVal.subscr, h]

/-- Claim C6, witness for the amended theorem at the empty mapping. -/
theorem claim_C6_amended_witness :
    check_response (PyVal.dict [])
      = (.error (.keyError "Ключ homeworks не доступен"), []) :=
  claim_C6_amended [] rfl

/-- Claim C7, counterexample: for a non-mapping payload (a string),
check_response raises the `TypeError` produced by the subscript
attempt, whose message is not the dedicated
`'response должен быть словарем'` ("response must be a mapping")
message -- that branch is unreachable. -/
theorem claim_C7_counterexample :
    (check_response (PyVal.str "hi")).1
      = .error (.typeError "string indices must be integers")
    ∧ (check_response (PyVal.str "hi")).1
      ≠ .error (.typeError "response должен быть словарем") := by
  refine ⟨rfl, fun hm => ?_⟩
  exact absurd (PyErr.typeError.inj (Except.error.inj hm)) (by decide)

/-- Claim C7, amended: every non-mapping payload raises a `TypeError`,
but it is the subscript error, never the dedicated
`'response должен быть словарем'` message (that check is dead code);
every mapping whose `homeworks` value is present and not a list raises
the distinct `TypeError('homework должен быть списком')`. -/
theorem claim_C7_amended (v : PyVal) (kvs : List (String × PyVal)) (hw : PyVal) :
    (v.isDict = false →
        ∃ m : String, check_response v = (.error (.typeError m), [])
          ∧ m ≠ "response должен быть словарем")
    ∧ (lookupStr "homeworks" kvs = some hw → hw.isList = false →
        check_response (PyVal.dict kvs)
          = (.error (.typeError "homework должен быть списком"),
             ["homework должен быть списком"])) := by
  constructor
  · intro hv
    cases v with
    | dict d => simp [PyVal.isDict] at hv
    | none => exact ⟨_, rfl, by decide⟩
    | bool b => exact ⟨_, rfl, by decide⟩
    | int n => exact ⟨_, rfl, by decide⟩
    | str s => exact ⟨_, rfl, by decide⟩
    | list xs => exact ⟨_, rfl, by decide⟩
  · intro h1 h2
    cases hw with
    | list xs => simp [PyVal.isList] at h2
    | none => simp [check_response, PyVal.subscr, PyVal.isDict, h1]
    | bool b => simp [check_response, PyVal.subscr, PyVal.isDict, h1]
    | int n => simp [check_response, PyVal.subscr, PyVal.isDict, h1]
    | str s => simp [check_response, PyVal.subscr, PyVal.isDict, h1]
    | dict d => simp [check_response, PyVal.subscr, PyVal.isDict, h1]

/-- Claim C7, witness for the amended theorem: a mapping whose
`homeworks` value is a number. -/
theorem claim_C7_amended_witness :
    check_response (PyVal.dict [("homeworks", PyVal.int 3)])
      = (.error (.typeError "homework должен быть списком"),
         ["homework должен быть списком"]) :=
  (claim_C7_amended (PyVal.int 3) [("homeworks", PyVal.int 3)] (PyVal.int 3)).2 rfl rfl

/-- Claim C8: for each of the three known status values, parse_status
returns exactly the fixed template -- the changed-status prefix with
the supplied homework name, followed by the canned verdict text for
that status. -/
theorem claim_C8 (name : String) :
    parse_status (PyVal.dict
        [("homework_name", PyVal.str name), ("status", PyVal.str "approved")])
      = (.ok ("Изменился статус проверки работы \"" ++ name ++ "\". "
              ++ "Работа проверена: ревьюеру всё понравилось. Ура!"), [])
    ∧ parse_status (PyVal.dict
        [("homework_name", PyVal.str name), ("status", PyVal.str "reviewing")])
      = (.ok ("Изменился статус проверки работы \"" ++ name ++ "\". "
              ++ "Работа взята на проверку ревьюером."), [])
    ∧ parse_status (PyVal.dict
        [("homework_name", PyVal.str name), ("status", PyVal.str "rejected")])
      = (.ok ("Изменился статус проверки работы \"" ++ name ++ "\". "
              ++ "Работа проверена: у ревьюера есть замечания."), []) :=
  ⟨rfl, rfl, rfl⟩

/-- Claim C8, witness at the concrete name used by the spec's
end-to-end scenario A. -/
theorem claim_C8_witness :
    parse_status (PyVal.dict
        [("homework_name", PyVal.str "Proj1"), ("status", PyVal.str "approved")])
      = (.ok ("Изменился статус проверки работы \"" ++ "Proj1" ++ "\". "
              ++ "Работа проверена: ревьюеру всё понравилось. Ура!"), []) :=
  (claim_C8 "Proj1").1

/-- Claim C9: for every item whose status value is outside the three
known values -- including an absent status (the `status` key missing,
so `.get` yields `None`), an empty string, and any non-string value --
parse_status raises `KeyError('Статус работы не определен.')` and in
particular does not return a string. -/
theorem claim_C9 (kvs : List (String × PyVal))
    (h : ∀ s : String, lookupStr "status" kvs = some (PyVal.str s) →
        lookupStr s HOMEWORK_VERDICTS = Option.none) :
    parse_status (PyVal.dict kvs)
      = (.error (.keyError "Статус работы не определен."),
         ["Статус работы не определен."]) := by
  rcases hs : lookupStr "status" kvs with _ | v
  · simp [parse_status, PyVal.get, hs]
  · cases v with
    | str s => simp [parse_status, PyVal.get, hs, h s hs]
    | none => simp [parse_status, PyVal.get, hs]
    | bool b => simp [parse_status, PyVal.get, hs]
    | int n => simp [parse_status, PyVal.get, hs]
    | list xs => simp [parse_status, PyVal.get, hs]
    | dict d => simp [parse_status, PyVal.get, hs]

/-- Claim C9, witness at a concrete unknown status value. -/
theorem claim_C9_witness :
    parse_status (PyVal.dict [("status", PyVal.str "unknown")])
      = (.error (.keyError "Статус работы не определен."),
         ["Статус работы не определен."]) :=
  claim_C9 [("status", PyVal.str "unknown")]
    (by intro s hs; simp [lookupStr] at hs; subst hs; rfl)

/-- Claim C10: after a successful, shape-valid response that lacks the
`current_date` key, the poll cursor holds `None` for that iteration
(regardless of whether the per-item notifications then succeed), and
a `None` cursor -- like a `0` cursor -- makes the next get_api_answer
call fall back to `int(time.time())` as its `from_date`. -/
theorem claim_C10 (cur : PyVal) (now now2 now3 : Int)
    (kvs : List (String × PyVal)) (hws : List PyVal) (f : Nat → Bool)
    (http2 http3 : HttpResult)
    (hhw : lookupStr "homeworks" kvs = some (PyVal.list hws))
    (hcd : lookupStr "current_date" kvs = Option.none) :
    (try_block cur now (.response 200 (.ok (PyVal.dict kvs))) f).2 = PyVal.none
    ∧ (get_api_answer PyVal.none now2 http2).from_date = PyVal.int now2
    ∧ (get_api_answer (PyVal.int 0) now3 http3).from_date = PyVal.int now3 := by
  refine ⟨?_, rfl, rfl⟩
  have h1 : (get_api_answer cur now
      (.response 200 (.ok (PyVal.dict kvs)))).result = .ok (PyVal.dict kvs) := by
    simp [get_api_answer]
  have h2 : (check_response (PyVal.dict kvs)).1 = .ok hws := by
    simp [check_response, PyVal.subscr, hhw, PyVal.isDict]
  have h3 : (PyVal.dict kvs).get "current_date" = .ok PyVal.none := by
    simp [PyVal.get, hcd]
  simp only [try_block, h1, h2, h3]
  rcases notify_each f 0 hws with e | u <;> rfl

/-- Claim C10, witness: a shape-valid response with an empty homework
list and no `current_date`, then two fetches with a `None` and a `0`
cursor. -/
theorem claim_C10_witness :
    (try_block (PyVal.int 5) 99
        (.response 200 (.ok (PyVal.dict [("homeworks", PyVal.list [])])))
        (fun _ => true)).2 = PyVal.none
    ∧ (get_api_answer PyVal.none 42 (.transportError "boom")).from_date
      = PyVal.int 42
    ∧ (get_api_answer (PyVal.int 0) 43 (.transportError "boom")).from_date
      = PyVal.int 43 :=
  claim_C10 (PyVal.int 5) 99 42 43 [("homeworks", PyVal.list [])] []
    (fun _ => true) (.transportError "boom") (.transportError "boom") rfl rfl

/-- Claim C1, counterexample: a fresh error whose operator-alert send
fails.  The failure is logged locally by send_message, but the raised
`SendMessageExeptinon` escapes the `except` branch and hence the
while-loop: the process crashes instead of resuming polling. -/
theorem claim_C1_counterexample :
    (loopIter "" (.error (.noAccessToApiExeption "Нет доступа к API")) false).crashed
      = some PyErr.sendMessageExeptinon
    ∧ (loopIter "" (.error (.noAccessToApiExeption "Нет доступа к API")) false).logs
      = ["Сообщение не отправилось: Сбой в работе программы: Нет доступа к API"] :=
  ⟨rfl, rfl⟩

/-- Claim C1, amended: a runtime error caught at the loop boundary
triggers at most one operator-alert attempt (none when its formatted
text duplicates the last reported error); the loop resumes polling
exactly when the alert either succeeds or is suppressed as a
duplicate; when the alert send itself fails, that failure is logged
locally but the send exception propagates out of the loop and
terminates the process. -/
theorem claim_C1_amended (box : String) (e : PyErr) (alertOk : Bool) :
    (loopIter box (.error e) alertOk).alerts.length ≤ 1
    ∧ ((loopIter box (.error e) alertOk).crashed = Option.none
        ↔ (alertOk = true ∨ "Сбой в работе программы: " ++ e.pyMessage = box))
    ∧ ((loopIter box (.error e) alertOk).crashed ≠ Option.none →
        (loopIter box (.error e) alertOk).logs
          = ["Сообщение не отправилось: "
              ++ ("Сбой в работе программы: " ++ e.pyMessage)]) := by
  by_cases hm : "Сбой в работе программы: " ++ e.pyMessage = box
  · simp [loopIter, send_message, hm]
  · cases alertOk <;> simp [loopIter, send_message, hm]

/-- Claim C1, witness for the amended theorem at a concrete fresh
error with a succeeding alert. -/
theorem claim_C1_amended_witness :
    (loopIter "" (.error (PyErr.noAccessToApiExeption "x")) true).alerts.length ≤ 1 :=
  (claim_C1_amended "" (PyErr.noAccessToApiExeption "x") true).1

/-- Claim C2, counterexample: an error iteration whose formatted text
equals the previously reported error sleeps for 0 seconds, not for
the fixed interval -- the sleep sits inside the
`if message != box_error` branch. -/
theorem claim_C2_counterexample :
    (loopIter "Сбой в работе программы: Нет доступа к API"
        (.error (.noAccessToApiExeption "Нет доступа к API")) true).sleptFor = 0
    ∧ (loopIter "Сбой в работе программы: Нет доступа к API"
        (.error (.noAccessToApiExeption "Нет доступа к API")) true).crashed
      = Option.none
    ∧ (0 : Nat) ≠ TELEGRAM_RETRY_TIME := ⟨rfl, rfl, by decide⟩

/-- Claim C2, amended: on an error iteration the loop sleeps for the
fixed interval exactly when the formatted message is new (and its
notification send succeeds); a duplicate error is followed
immediately by the next poll with no sleep and, in particular, never
terminates the loop whatever the alert-delivery outcome would be. -/
theorem claim_C2_amended (box : String) (e : PyErr) :
    (loopIter box (.error e) true).crashed = Option.none
    ∧ (loopIter box (.error e) true).sleptFor
      = (if "Сбой в работе программы: " ++ e.pyMessage = box then 0
         else TELEGRAM_RETRY_TIME)
    ∧ (∀ alertOk : Bool, "Сбой в работе программы: " ++ e.pyMessage = box →
        (loopIter box (.error e) alertOk).crashed = Option.none
        ∧ (loopIter box (.error e) alertOk).sleptFor = 0) := by
  by_cases hm : "Сбой в работе программы: " ++ e.pyMessage = box <;>
    simp [loopIter, send_message, hm]

/-- Claim C2, witness for the amended theorem at a concrete fresh
error. -/
theorem claim_C2_amended_witness :
    (loopIter "" (.error (PyErr.noAccessToApiExeption "x")) true).crashed
      = Option.none :=
  (claim_C2_amended "" (PyErr.noAccessToApiExeption "x")).1

/-- Claim C4, counterexample: in a fresh run failing with formatted
texts a, a, b, the second and third consecutive failures carry
different texts, yet only one notification is sent for that pair
(the claim demands exactly two). -/
theorem claim_C4_counterexample :
    runFailures "" [.noAccessToApiExeption "a", .noAccessToApiExeption "a",
        .noAccessToApiExeption "b"]
      = [["Сбой в работе программы: a"], [], ["Сбой в работе программы: b"]]
    ∧ ("Сбой в работе программы: a" : String) ≠ "Сбой в работе программы: b"
    ∧ ([] : List String).length + ["Сбой в работе программы: b"].length ≠ 2 :=
  ⟨rfl, by decide, by decide⟩

/-- Claim C4, amended (alert sends succeeding): two consecutive
failures with identical formatted text produce at most one
notification; two consecutive failures with different formatted texts
produce exactly two notifications when the first text differs from
the last previously reported error, and exactly one when the first
failure is itself a suppressed duplicate of that earlier error.
Duplicates are compared by exact string equality. -/
theorem claim_C4_amended (box : String) (e1 e2 : PyErr) :
    (("Сбой в работе программы: " ++ e1.pyMessage
        = "Сбой в работе программы: " ++ e2.pyMessage) →
      (loopIter box (.error e1) true).alerts.length
        + (loopIter (loopIter box (.error e1) true).box_error
            (.error e2) true).alerts.length ≤ 1)
    ∧ (("Сбой в работе программы: " ++ e1.pyMessage
        ≠ "Сбой в работе программы: " ++ e2.pyMessage) →
      (loopIter box (.error e1) true).alerts.length
        + (loopIter (loopIter box (.error e1) true).box_error
            (.error e2) true).alerts.length
        = (if "Сбой в работе программы: " ++ e1.pyMessage = box then 1 else 2)) := by
  constructor
  · intro h12
    rw [loopIter_error_alerts, loopIter_error_box, loopIter_error_alerts]
    split_ifs with ha hb hb
    · simp
    · simp
    · simp
    · exact absurd h12.symm hb
  · intro h12
    rw [loopIter_error_alerts, loopIter_error_box, loopIter_error_alerts]
    split_ifs with ha hb hb
    · exact absurd (ha.trans hb.symm) h12
    · simp
    · exact absurd hb.symm h12
    · simp

/-- Claim C4, witness for the amended theorem: two fresh failures with
different texts yield exactly two notifications. -/
theorem claim_C4_amended_witness :
    (loopIter "" (.error (PyErr.noAccessToApiExeption "a")) true).alerts.length
      + (loopIter (loopIter "" (.error (PyErr.noAccessToApiExeption "a")) true).box_error
          (.error (PyErr.noAccessToApiExeption "b")) true).alerts.length = 2 := by
  have h := (claim_C4_amended "" (PyErr.noAccessToApiExeption "a")
      (PyErr.noAccessToApiExeption "b")).2 (by decide)
  rw [if_neg (by decide)] at h
  exact h

end HomeworkBot
